import Mathlib

/-!
Verification of the Stratum V1 typed message codec and dispatch layer
(`open/protocols/stratum/src/v1/messages.rs`).

The message catalog, the conversion macros and the dispatch impls are
translated from the source file.  The parts of the crate the source file
depends on but that are not shown (`v1::framing`, the `HexBytes` /
`HexU32Le` / `ExtraNonce1` wire primitives, the `wire::Message` envelope
and the serde serializer semantics of the derive attributes) are modelled
from the spec; each such definition says so in its doc comment.

Machine integers are embedded as `Fin`: a Rust `u8` is `Fin 256`, a `u32`
is `Fin 4294967296`.  Rust `f32` is embedded as an exact numeric carrier
(`F32` wrapping `Rat`): every claim touching a float concerns only how the
value is wrapped on the wire, never float arithmetic or rounding.
-/

namespace StratumV1

/-- Modelled from the spec: the generic JSON-like structured value
representation (`serde_json::Value`, not under the shown sources) that
frame payloads carry.  Objects are not needed by the payload layer, which
works with positional params arrays and result values. -/
inductive Json where
  | null
  | bool (b : Bool)
  | num (q : Rat)
  | str (s : String)
  | arr (elems : List Json)

/-- Modelled from the spec: the fixed method enumeration of
`crate::v1::framing::Method` (not under the shown sources); the spec lists
Subscribe, Authorize, SetDifficulty, Notify, Submit. -/
inductive Method where
  | Subscribe
  | Authorize
  | SetDifficulty
  | Notify
  | Submit
deriving DecidableEq

/-- Modelled from the spec: the wire name of each method tag. -/
def Method.wireName : Method → String
  | .Subscribe => "mining.subscribe"
  | .Authorize => "mining.authorize"
  | .SetDifficulty => "mining.set_difficulty"
  | .Notify => "mining.notify"
  | .Submit => "mining.submit"

/-- Modelled from the spec: `framing::RequestPayload` — a method tag plus
the ordered positional params value. -/
structure RequestPayload where
  method : Method
  params : Json

/-- Modelled from the spec: `framing::Request` — id (absent for one-way
notifications) plus the payload. -/
structure Request where
  id : Option Nat
  payload : RequestPayload

/-- Modelled from the spec: `framing::StratumResult` — a newtype over the
generic structured value carried as a successful result. -/
structure StratumResult where
  val : Json

/-- Modelled from the spec: the structured error of a response — code,
message, optional detail. -/
structure StratumError where
  code : Int
  message : String
  detail : Option String

/-- Modelled from the spec: `framing::ResponsePayload` — an optional
result and an optional error. -/
structure ResponsePayload where
  result : Option StratumResult
  error : Option StratumError

/-- Modelled from the spec: `framing::Response` — id plus payload. -/
structure Response where
  id : Nat
  payload : ResponsePayload

/-- Lower-case hex rendering of one hex digit (value below 16): code
point 48 onwards for the decimal digits, 87 onwards (so starting at the
letter a, code point 97) for values ten to fifteen. -/
def hexDigitChar (n : Nat) : Char :=
  if n < 10 then Char.ofNat (48 + n) else Char.ofNat (87 + n)

/-- Case-insensitive hex digit decoding by code-point range (digits,
lower-case letters a to f, upper-case letters A to F), failing on any
other character. -/
def decodeHexDigit (c : Char) : Option (Fin 16) :=
  let n := c.toNat
  if h : 48 ≤ n ∧ n ≤ 57 then some ⟨n - 48, by omega⟩
  else if h : 97 ≤ n ∧ n ≤ 102 then some ⟨n - 87, by omega⟩
  else if h : 65 ≤ n ∧ n ≤ 70 then some ⟨n - 55, by omega⟩
  else none

/-- Modelled from the spec: `HexBytes` (`crate::v1::HexBytes`, not under
the shown sources) — a variable-length byte string that round-trips
through hex: lower-case on encode, case-insensitive on decode. -/
structure HexBytes where
  bytes : List (Fin 256)
deriving DecidableEq

/-- Two lower-case hex characters of one byte, high digit first. -/
def byteToHexChars (b : Fin 256) : List Char :=
  [hexDigitChar (b.val / 16), hexDigitChar (b.val % 16)]

/-- Lower-case hex rendering of a byte string. -/
def bytesToHexChars : List (Fin 256) → List Char
  | [] => []
  | b :: bs => byteToHexChars b ++ bytesToHexChars bs

/-- Hex decoding of a character list into bytes: fails on odd length or a
non-hex character. -/
def hexCharsToBytes : List Char → Option (List (Fin 256))
  | [] => some []
  | c1 :: c2 :: rest =>
    match decodeHexDigit c1, decodeHexDigit c2, hexCharsToBytes rest with
    | some hi, some lo, some bs =>
      some (⟨hi.val * 16 + lo.val, by
        have h1 := hi.isLt; have h2 := lo.isLt; omega⟩ :: bs)
    | _, _, _ => none
  | [_] => none

/-- Modelled from the spec: serde serialization of `HexBytes` — a JSON
string of lower-case hex. -/
def hexBytesToJson (hb : HexBytes) : Json :=
  .str (String.mk (bytesToHexChars hb.bytes))

/-- Modelled from the spec: serde deserialization of `HexBytes` from a
JSON hex string, case-insensitive. -/
def hexBytesFromJson : Json → Option HexBytes
  | .str s => (hexCharsToBytes s.data).map HexBytes.mk
  | _ => none

/-- Modelled from the spec: `HexU32Le` (`crate::v1::HexU32Le`, not under
the shown sources) — a 32-bit unsigned integer rendered on the wire as
hex of its little-endian byte order. -/
structure HexU32Le where
  val : Fin 4294967296
deriving DecidableEq

/-- The four bytes of a `u32` in little-endian order (least significant
byte first). -/
def u32ToLeBytes (v : Fin 4294967296) : List (Fin 256) :=
  [⟨v.val % 256, by omega⟩,
   ⟨v.val / 256 % 256, by omega⟩,
   ⟨v.val / 65536 % 256, by omega⟩,
   ⟨v.val / 16777216 % 256, by omega⟩]

/-- Numeric value of four bytes taken in little-endian order: the first
byte is least significant, the last is most significant. -/
def leBytesToU32 (b0 b1 b2 b3 : Fin 256) : Fin 4294967296 :=
  ⟨b0.val + 256 * b1.val + 65536 * b2.val + 16777216 * b3.val, by
    have h0 := b0.isLt; have h1 := b1.isLt
    have h2 := b2.isLt; have h3 := b3.isLt; omega⟩

/-- Modelled from the spec: encode of the little-endian 32-bit codec —
reverse the byte order of the integer, then hex-render. -/
def hexU32ToJson (h : HexU32Le) : Json :=
  .str (String.mk (bytesToHexChars (u32ToLeBytes h.val)))

/-- Model of `u32::from_le_bytes` on a decoded byte list: requires exactly four
bytes, interpreted little-endian. -/
def leBytesListToU32 : List (Fin 256) → Option HexU32Le
  | [b0, b1, b2, b3] => some ⟨leBytesToU32 b0 b1 b2 b3⟩
  | _ => none

/-- Modelled from the spec: decode of the little-endian 32-bit codec —
hex-decode, then interpret the bytes in reverse order (little-endian)
for the numeric conversion; exactly four bytes are required. -/
def hexU32FromJson : Json → Option HexU32Le
  | .str s => (hexCharsToBytes s.data).bind leBytesListToU32
  | _ => none

/-- Modelled from the spec: `ExtraNonce1` (`crate::v1::ExtraNonce1`, not
under the shown sources) — the opaque session token issued by the pool at
subscription, wire-encoded as a hex byte string. -/
structure ExtraNonce1 where
  token : HexBytes
deriving DecidableEq

def extraNonce1ToJson (e : ExtraNonce1) : Json := hexBytesToJson e.token

def extraNonce1FromJson (j : Json) : Option ExtraNonce1 :=
  (hexBytesFromJson j).map ExtraNonce1.mk

/-- Model of Rust `f32` as an exact numeric carrier.  The claims that
involve a float (`SetDifficulty`) concern only how the value is wrapped
in the params array, never float arithmetic or rounding, so the value is
kept exact. -/
structure F32 where
  val : Rat
deriving DecidableEq

/-- serde serialization of `Option<String>`: `None` is JSON null. -/
def optStringToJson : Option String → Json
  | none => .null
  | some s => .str s

/-- serde deserialization of `Option<String>`: null is `None`, a string
is `Some`, anything else fails. -/
def optStringFromJson : Json → Option (Option String)
  | .null => some none
  | .str s => some (some s)
  | _ => none

/-- serde serialization of `Option<ExtraNonce1>`. -/
def optExtraNonce1ToJson : Option ExtraNonce1 → Json
  | none => .null
  | some e => extraNonce1ToJson e

/-- serde deserialization of `Option<ExtraNonce1>`. -/
def optExtraNonce1FromJson : Json → Option (Option ExtraNonce1)
  | .null => some none
  | j => (extraNonce1FromJson j).map some

/-- serde serialization of `usize` as a JSON number. -/
def natToJson (n : Nat) : Json := .num n

/-- serde deserialization of `usize`: requires a non-negative integral
JSON number. -/
def natFromJson : Json → Option Nat
  | .num q => if q.den = 1 ∧ 0 ≤ q.num then some q.num.toNat else none
  | _ => none

/-- Rust `pub struct Subscribe(Option<String>, Option<ExtraNonce1>, Option<String>, Option<String>)`
— fields in the Rust tuple order: agent signature, prior session token,
pool url, pool port. -/
structure Subscribe where
  f0 : Option String
  f1 : Option ExtraNonce1
  f2 : Option String
  f3 : Option String
deriving DecidableEq

def Subscribe.agent_signature (s : Subscribe) : Option String := s.f0

def Subscribe.extra_nonce1 (s : Subscribe) : Option ExtraNonce1 := s.f1

def Subscribe.url (s : Subscribe) : Option String := s.f2

def Subscribe.port (s : Subscribe) : Option String := s.f3

/-- serde: a 4-field tuple struct serializes as a 4-element JSON array. -/
def subscribeToJson (m : Subscribe) : Json :=
  .arr [optStringToJson m.f0, optExtraNonce1ToJson m.f1,
        optStringToJson m.f2, optStringToJson m.f3]

/-- serde: deserialization of `Subscribe` from a JSON array of exactly
four elements of the right wire types. -/
def subscribeFromJson : Json → Option Subscribe
  | .arr [a, b, c, d] =>
    match optStringFromJson a, optExtraNonce1FromJson b,
          optStringFromJson c, optStringFromJson d with
    | some x0, some x1, some x2, some x3 => some ⟨x0, x1, x2, x3⟩
    | _, _, _, _ => none
  | _ => none

/-- Rust `pub struct Subscription(pub String, pub String)` — a
(subscription-class, subscription-id) pair. -/
structure Subscription where
  f0 : String
  f1 : String
deriving DecidableEq

def subscriptionToJson (s : Subscription) : Json := .arr [.str s.f0, .str s.f1]

def subscriptionFromJson : Json → Option Subscription
  | .arr [.str a, .str b] => some ⟨a, b⟩
  | _ => none

def subscriptionListFromJson : List Json → Option (List Subscription)
  | [] => some []
  | j :: js =>
    match subscriptionFromJson j, subscriptionListFromJson js with
    | some s, some ss => some (s :: ss)
    | _, _ => none

/-- Rust `pub struct SubscribeResult(pub Vec<Subscription>, pub ExtraNonce1, pub usize)`. -/
structure SubscribeResult where
  f0 : List Subscription
  f1 : ExtraNonce1
  f2 : Nat
deriving DecidableEq

def SubscribeResult.subscriptions (r : SubscribeResult) : List Subscription := r.f0

def SubscribeResult.extra_nonce_1 (r : SubscribeResult) : ExtraNonce1 := r.f1

def SubscribeResult.extra_nonce_2_size (r : SubscribeResult) : Nat := r.f2

def subscribeResultToJson (r : SubscribeResult) : Json :=
  .arr [.arr (r.f0.map subscriptionToJson), extraNonce1ToJson r.f1, natToJson r.f2]

def subscribeResultFromJson : Json → Option SubscribeResult
  | .arr [.arr subs, b, c] =>
    match subscriptionListFromJson subs, extraNonce1FromJson b, natFromJson c with
    | some x0, some x1, some x2 => some ⟨x0, x1, x2⟩
    | _, _, _ => none
  | _ => none

/-- Rust `pub struct BooleanResult(pub bool)` — serde serializes the newtype
transparently as a bare JSON boolean. -/
structure BooleanResult where
  f0 : Bool
deriving DecidableEq

def booleanResultToJson (r : BooleanResult) : Json := .bool r.f0

def booleanResultFromJson : Json → Option BooleanResult
  | .bool b => some ⟨b⟩
  | _ => none

/-- Rust `pub struct Authorize(pub String, pub String)` — worker name and password. -/
structure Authorize where
  f0 : String
  f1 : String
deriving DecidableEq

def Authorize.name (a : Authorize) : String := a.f0

def Authorize.password (a : Authorize) : String := a.f1

def authorizeToJson (a : Authorize) : Json := .arr [.str a.f0, .str a.f1]

def authorizeFromJson : Json → Option Authorize
  | .arr [.str a, .str b] => some ⟨a, b⟩
  | _ => none

/-- Rust `pub struct SetDifficulty(pub [f32; 1])` — the one element of the
Rust `[f32; 1]` array is stored directly; the wrapping array reappears in
the serde encoding, which the source enforces exactly so that the params
array is not flattened to a bare scalar. -/
structure SetDifficulty where
  f0 : F32
deriving DecidableEq

/-- Rust `pub fn value(&self) -> f32 { self.0[0] }` -/
def SetDifficulty.value (s : SetDifficulty) : F32 := s.f0

/-- serde: `[f32; 1]` inside a transparent newtype serializes as a
one-element JSON array. -/
def setDifficultyToJson (s : SetDifficulty) : Json := .arr [.num s.f0.val]

/-- serde: `SetDifficulty` deserializes only from a one-element JSON
array holding a number. -/
def setDifficultyFromJson : Json → Option SetDifficulty
  | .arr [.num q] => some ⟨⟨q⟩⟩
  | _ => none

/-- Rust `pub struct JobId(HexBytes)`. -/
structure JobId where
  f0 : HexBytes
deriving DecidableEq

def JobId.from_slice (job_id : List (Fin 256)) : JobId := ⟨⟨job_id⟩⟩

/-- Rust `pub struct PrevHash(HexBytes)`. -/
structure PrevHash where
  f0 : HexBytes
deriving DecidableEq

/-- Rust `pub struct CoinBase1(HexBytes)` — leading part of the coinbase transaction. -/
structure CoinBase1 where
  f0 : HexBytes
deriving DecidableEq

/-- Rust `pub struct CoinBase2(HexBytes)` — trailing part of the coinbase transaction. -/
structure CoinBase2 where
  f0 : HexBytes
deriving DecidableEq

/-- Rust `pub struct MerkleBranch(Vec<HexBytes>)`. -/
structure MerkleBranch where
  f0 : List HexBytes
deriving DecidableEq

/-- Rust `pub struct Version(HexU32Le)` — version field of the block header. -/
structure Version where
  f0 : HexU32Le
deriving DecidableEq

/-- Rust `pub struct Bits(HexU32Le)` — network difficulty target. -/
structure Bits where
  f0 : HexU32Le
deriving DecidableEq

/-- Rust `pub struct Time(HexU32Le)` — network time. -/
structure Time where
  f0 : HexU32Le
deriving DecidableEq

def jobIdToJson (x : JobId) : Json := hexBytesToJson x.f0

def jobIdFromJson (j : Json) : Option JobId := (hexBytesFromJson j).map JobId.mk

def prevHashToJson (x : PrevHash) : Json := hexBytesToJson x.f0

def prevHashFromJson (j : Json) : Option PrevHash := (hexBytesFromJson j).map PrevHash.mk

def coinBase1ToJson (x : CoinBase1) : Json := hexBytesToJson x.f0

def coinBase1FromJson (j : Json) : Option CoinBase1 := (hexBytesFromJson j).map CoinBase1.mk

def coinBase2ToJson (x : CoinBase2) : Json := hexBytesToJson x.f0

def coinBase2FromJson (j : Json) : Option CoinBase2 := (hexBytesFromJson j).map CoinBase2.mk

def hexBytesListFromJson : List Json → Option (List HexBytes)
  | [] => some []
  | j :: js =>
    match hexBytesFromJson j, hexBytesListFromJson js with
    | some b, some bs => some (b :: bs)
    | _, _ => none

def merkleBranchToJson (x : MerkleBranch) : Json := .arr (x.f0.map hexBytesToJson)

def merkleBranchFromJson : Json → Option MerkleBranch
  | .arr js => (hexBytesListFromJson js).map MerkleBranch.mk
  | _ => none

def versionToJson (x : Version) : Json := hexU32ToJson x.f0

def versionFromJson (j : Json) : Option Version := (hexU32FromJson j).map Version.mk

def bitsToJson (x : Bits) : Json := hexU32ToJson x.f0

def bitsFromJson (j : Json) : Option Bits := (hexU32FromJson j).map Bits.mk

def timeToJson (x : Time) : Json := hexU32ToJson x.f0

def timeFromJson (j : Json) : Option Time := (hexU32FromJson j).map Time.mk

/-- Rust `pub struct Notify(JobId, PrevHash, CoinBase1, CoinBase2, MerkleBranch, Version, Bits, Time, bool)`
— fields in the Rust tuple (and wire array) order. -/
structure Notify where
  f0 : JobId
  f1 : PrevHash
  f2 : CoinBase1
  f3 : CoinBase2
  f4 : MerkleBranch
  f5 : Version
  f6 : Bits
  f7 : Time
  f8 : Bool
deriving DecidableEq

def Notify.job_id (n : Notify) : List (Fin 256) := n.f0.f0.bytes

def Notify.prev_hash (n : Notify) : List (Fin 256) := n.f1.f0.bytes

def Notify.coin_base_1 (n : Notify) : List (Fin 256) := n.f2.f0.bytes

def Notify.coin_base_2 (n : Notify) : List (Fin 256) := n.f3.f0.bytes

def Notify.merkle_branch (n : Notify) : List HexBytes := n.f4.f0

def Notify.version (n : Notify) : Fin 4294967296 := n.f5.f0.val

def Notify.bits (n : Notify) : Fin 4294967296 := n.f6.f0.val

def Notify.time (n : Notify) : Fin 4294967296 := n.f7.f0.val

def Notify.clean_jobs (n : Notify) : Bool := n.f8

/-- serde: the 9-field tuple struct serializes as a 9-element JSON array. -/
def notifyToJson (n : Notify) : Json :=
  .arr [jobIdToJson n.f0, prevHashToJson n.f1, coinBase1ToJson n.f2,
        coinBase2ToJson n.f3, merkleBranchToJson n.f4, versionToJson n.f5,
        bitsToJson n.f6, timeToJson n.f7, .bool n.f8]

/-- serde: deserialization of `Notify` from a JSON array of exactly nine
elements of the right wire types. -/
def notifyFromJson : Json → Option Notify
  | .arr [a, b, c, d, e, f, g, h, .bool i] =>
    match jobIdFromJson a, prevHashFromJson b, coinBase1FromJson c,
          coinBase2FromJson d, merkleBranchFromJson e, versionFromJson f,
          bitsFromJson g, timeFromJson h with
    | some x0, some x1, some x2, some x3, some x4, some x5, some x6, some x7 =>
      some ⟨x0, x1, x2, x3, x4, x5, x6, x7, i⟩
    | _, _, _, _, _, _, _, _ => none
  | _ => none

/-- Rust `pub struct UserName(String)`. -/
structure UserName where
  f0 : String
deriving DecidableEq

/-- Rust `pub struct ExtraNonce2(HexBytes)`. -/
structure ExtraNonce2 where
  f0 : HexBytes
deriving DecidableEq

/-- Rust `pub struct Nonce(HexU32Le)`. -/
structure Nonce where
  f0 : HexU32Le
deriving DecidableEq

def userNameToJson (x : UserName) : Json := .str x.f0

def userNameFromJson : Json → Option UserName
  | .str s => some ⟨s⟩
  | _ => none

def extraNonce2ToJson (x : ExtraNonce2) : Json := hexBytesToJson x.f0

def extraNonce2FromJson (j : Json) : Option ExtraNonce2 :=
  (hexBytesFromJson j).map ExtraNonce2.mk

def nonceToJson (x : Nonce) : Json := hexU32ToJson x.f0

def nonceFromJson (j : Json) : Option Nonce := (hexU32FromJson j).map Nonce.mk

/-- Rust `pub struct Submit(UserName, JobId, ExtraNonce2, Time, Nonce, Version)`
— fields in the Rust tuple (and wire array) order. -/
structure Submit where
  f0 : UserName
  f1 : JobId
  f2 : ExtraNonce2
  f3 : Time
  f4 : Nonce
  f5 : Version
deriving DecidableEq

def Submit.user_name (s : Submit) : String := s.f0.f0

def Submit.job_id (s : Submit) : List (Fin 256) := s.f1.f0.bytes

def Submit.extra_nonce_2 (s : Submit) : List (Fin 256) := s.f2.f0.bytes

def Submit.time (s : Submit) : Fin 4294967296 := s.f3.f0.val

def Submit.nonce (s : Submit) : Fin 4294967296 := s.f4.f0.val

def Submit.version (s : Submit) : Fin 4294967296 := s.f5.f0.val

/-- serde: the 6-field tuple struct serializes as a 6-element JSON array. -/
def submitToJson (s : Submit) : Json :=
  .arr [userNameToJson s.f0, jobIdToJson s.f1, extraNonce2ToJson s.f2,
        timeToJson s.f3, nonceToJson s.f4, versionToJson s.f5]

/-- serde: deserialization of `Submit` from a JSON array of exactly six
elements of the right wire types. -/
def submitFromJson : Json → Option Submit
  | .arr [a, b, c, d, e, f] =>
    match userNameFromJson a, jobIdFromJson b, extraNonce2FromJson c,
          timeFromJson d, nonceFromJson e, versionFromJson f with
    | some x0, some x1, some x2, some x3, some x4, some x5 =>
      some ⟨x0, x1, x2, x3, x4, x5⟩
    | _, _, _, _, _, _ => none
  | _ => none

/-- The error kind used by the conversions of the source file:
`ErrorKind::Json(String)` (message conversions only ever construct the
`Json` kind, e.g. `ErrorKind::Json("No result".into())`). -/
inductive ErrorKind where
  | Json (msg : String)
deriving DecidableEq

/-- Outcome of a fallible conversion, distinguishing the typed error a
caller receives (`Err` of the Rust `Result`) from an unrecoverable panic
(`assert_eq!` failing). -/
inductive ConvResult (α : Type) where
  | panic (msg : String)
  | err (e : ErrorKind)
  | ok (v : α)
deriving DecidableEq

/-- The message of a failed `assert_eq!(req.payload.method, $method)`. -/
def methodAssertMsg : String := "assertion failed: req.payload.method == method"

/-- Conversion `TryFrom<Subscribe> for framing::RequestPayload` (from
`impl_conversion_request!`): serialize the params and pair them with the
method tag.  The serde serializer cannot fail on these in-memory values,
so the result is always `ok`. -/
def Subscribe.toRequestPayload (m : Subscribe) : Except ErrorKind RequestPayload :=
  .ok ⟨Method.Subscribe, subscribeToJson m⟩

/-- Conversion `TryFrom<framing::Request> for Subscribe` (from
`impl_conversion_request!`): `assert_eq!` on the method tag — a panic on
mismatch — then serde deserialization of the params. -/
def Subscribe.tryFromRequest (req : Request) : ConvResult Subscribe :=
  if req.payload.method = Method.Subscribe then
    match subscribeFromJson req.payload.params with
    | some m => .ok m
    | none => .err (.Json "Cannot parse request params")
  else .panic methodAssertMsg

/-- Conversion `TryFrom<Authorize> for framing::RequestPayload`. -/
def Authorize.toRequestPayload (m : Authorize) : Except ErrorKind RequestPayload :=
  .ok ⟨Method.Authorize, authorizeToJson m⟩

/-- Conversion `TryFrom<framing::Request> for Authorize`. -/
def Authorize.tryFromRequest (req : Request) : ConvResult Authorize :=
  if req.payload.method = Method.Authorize then
    match authorizeFromJson req.payload.params with
    | some m => .ok m
    | none => .err (.Json "Cannot parse request params")
  else .panic methodAssertMsg

/-- Conversion `TryFrom<SetDifficulty> for framing::RequestPayload`. -/
def SetDifficulty.toRequestPayload (m : SetDifficulty) : Except ErrorKind RequestPayload :=
  .ok ⟨Method.SetDifficulty, setDifficultyToJson m⟩

/-- Conversion `TryFrom<framing::Request> for SetDifficulty`. -/
def SetDifficulty.tryFromRequest (req : Request) : ConvResult SetDifficulty :=
  if req.payload.method = Method.SetDifficulty then
    match setDifficultyFromJson req.payload.params with
    | some m => .ok m
    | none => .err (.Json "Cannot parse request params")
  else .panic methodAssertMsg

/-- Conversion `TryFrom<Notify> for framing::RequestPayload`. -/
def Notify.toRequestPayload (m : Notify) : Except ErrorKind RequestPayload :=
  .ok ⟨Method.Notify, notifyToJson m⟩

/-- Conversion `TryFrom<framing::Request> for Notify`. -/
def Notify.tryFromRequest (req : Request) : ConvResult Notify :=
  if req.payload.method = Method.Notify then
    match notifyFromJson req.payload.params with
    | some m => .ok m
    | none => .err (.Json "Cannot parse request params")
  else .panic methodAssertMsg

/-- Conversion `TryFrom<Submit> for framing::RequestPayload`. -/
def Submit.toRequestPayload (m : Submit) : Except ErrorKind RequestPayload :=
  .ok ⟨Method.Submit, submitToJson m⟩

/-- Conversion `TryFrom<framing::Request> for Submit`. -/
def Submit.tryFromRequest (req : Request) : ConvResult Submit :=
  if req.payload.method = Method.Submit then
    match submitFromJson req.payload.params with
    | some m => .ok m
    | none => .err (.Json "Cannot parse request params")
  else .panic methodAssertMsg

/-- Conversion `TryFrom<SubscribeResult> for framing::ResponsePayload` (from
`impl_conversion_response!`): wrap the serialized value as a successful
result with no error. -/
def SubscribeResult.toResponsePayload (r : SubscribeResult) : Except ErrorKind ResponsePayload :=
  .ok ⟨some ⟨subscribeResultToJson r⟩, none⟩

/-- Conversion `TryFrom<&framing::StratumResult> for SubscribeResult`: serde
deserialization of the carried value. -/
def SubscribeResult.tryFromStratumResult (r : StratumResult) : ConvResult SubscribeResult :=
  match subscribeResultFromJson r.val with
  | some m => .ok m
  | none => .err (.Json "Failed to parse response")

/-- Conversion `TryFrom<framing::Response> for SubscribeResult`:
`resp.payload.result.ok_or(ErrorKind::Json("No result"))?` then the
`StratumResult` conversion; the `error` field is never inspected. -/
def SubscribeResult.tryFromResponse (resp : Response) : ConvResult SubscribeResult :=
  match resp.payload.result with
  | some r => SubscribeResult.tryFromStratumResult r
  | none => .err (.Json "No result")

/-- Conversion `TryFrom<BooleanResult> for framing::ResponsePayload`. -/
def BooleanResult.toResponsePayload (r : BooleanResult) : Except ErrorKind ResponsePayload :=
  .ok ⟨some ⟨booleanResultToJson r⟩, none⟩

/-- Conversion `TryFrom<&framing::StratumResult> for BooleanResult`. -/
def BooleanResult.tryFromStratumResult (r : StratumResult) : ConvResult BooleanResult :=
  match booleanResultFromJson r.val with
  | some m => .ok m
  | none => .err (.Json "Failed to parse response")

/-- Conversion `TryFrom<framing::Response> for BooleanResult`. -/
def BooleanResult.tryFromResponse (resp : Response) : ConvResult BooleanResult :=
  match resp.payload.result with
  | some r => BooleanResult.tryFromStratumResult r
  | none => .err (.Json "No result")

/-- Modelled from the spec: the `wire::Message<V1Protocol>` envelope a
handler receives together with each message (context for correlating a
response to its originating request id); its internal structure is opaque
to dispatch, which only passes it through. -/
structure WireMessage where
  id : Option Nat
deriving DecidableEq

/-- One invocation of a `V1Handler` method, with its arguments.  The
handler itself is modelled by the trace of visit calls it receives, so
that "which method, how many times, with which arguments" is observable. -/
inductive HandlerCall where
  | visit_subscribe (msg : WireMessage) (m : Subscribe)
  | visit_authorize (msg : WireMessage) (m : Authorize)
  | visit_set_difficulty (msg : WireMessage) (m : SetDifficulty)
  | visit_notify (msg : WireMessage) (m : Notify)
  | visit_submit (msg : WireMessage) (m : Submit)
deriving DecidableEq

/-- Dispatch `impl wire::Payload<V1Protocol> for Subscribe`: the body is the single
call `handler.visit_subscribe(msg, self)`. -/
def Subscribe.accept (m : Subscribe) (msg : WireMessage) : List HandlerCall :=
  [.visit_subscribe msg m]

/-- Dispatch `impl wire::Payload<V1Protocol> for Authorize`. -/
def Authorize.accept (m : Authorize) (msg : WireMessage) : List HandlerCall :=
  [.visit_authorize msg m]

/-- Dispatch `impl wire::Payload<V1Protocol> for SetDifficulty`. -/
def SetDifficulty.accept (m : SetDifficulty) (msg : WireMessage) : List HandlerCall :=
  [.visit_set_difficulty msg m]

/-- Dispatch `impl wire::Payload<V1Protocol> for Notify`. -/
def Notify.accept (m : Notify) (msg : WireMessage) : List HandlerCall :=
  [.visit_notify msg m]

/-- Dispatch `impl wire::Payload<V1Protocol> for Submit`. -/
def Submit.accept (m : Submit) (msg : WireMessage) : List HandlerCall :=
  [.visit_submit msg m]

/-- Decoding a hex digit rendered by `hexDigitChar` recovers the digit. -/
theorem decodeHexDigit_hexDigitChar (n : Fin 16) :
    decodeHexDigit (hexDigitChar n.val) = some n := by
  revert n; decide

/-- Hex-decoding a hex-rendered byte string recovers the bytes. -/
theorem hexCharsToBytes_bytesToHexChars :
    ∀ bs : List (Fin 256), hexCharsToBytes (bytesToHexChars bs) = some bs
  | [] => rfl
  | b :: bs => by
    have hhi : b.val / 16 < 16 := by have := b.isLt; omega
    have hlo : b.val % 16 < 16 := by omega
    have e1 := decodeHexDigit_hexDigitChar ⟨b.val / 16, hhi⟩
    have e2 := decodeHexDigit_hexDigitChar ⟨b.val % 16, hlo⟩
    have ih := hexCharsToBytes_bytesToHexChars bs
    show hexCharsToBytes
        (hexDigitChar (b.val / 16) :: hexDigitChar (b.val % 16) :: bytesToHexChars bs)
      = some (b :: bs)
    rw [hexCharsToBytes, e1, e2, ih]
    have hb : b.val / 16 * 16 + b.val % 16 = b.val := by omega
    simp only [Option.some.injEq, List.cons.injEq]
    exact ⟨Fin.ext hb, trivial⟩

/-- Round-trip: `HexBytes` through its JSON hex-string encoding. -/
theorem hexBytesFromJson_toJson (hb : HexBytes) :
    hexBytesFromJson (hexBytesToJson hb) = some hb := by
  show (hexCharsToBytes (bytesToHexChars hb.bytes)).map HexBytes.mk = some hb
  rw [hexCharsToBytes_bytesToHexChars]
  rfl

/-- Decoding a hex rendering of four explicit bytes yields the
little-endian numeric interpretation of those bytes. -/
theorem hexU32FromJson_leBytes (b0 b1 b2 b3 : Fin 256) :
    hexU32FromJson (.str (String.mk (bytesToHexChars [b0, b1, b2, b3])))
      = some ⟨leBytesToU32 b0 b1 b2 b3⟩ := by
  show (hexCharsToBytes (bytesToHexChars [b0, b1, b2, b3])).bind leBytesListToU32
    = some ⟨leBytesToU32 b0 b1 b2 b3⟩
  rw [hexCharsToBytes_bytesToHexChars]
  rfl

/-- Round-trip: `HexU32Le` through its little-endian hex encoding. -/
theorem hexU32FromJson_toJson (h : HexU32Le) :
    hexU32FromJson (hexU32ToJson h) = some h := by
  obtain ⟨⟨v, hv⟩⟩ := h
  have h4 := hexU32FromJson_leBytes ⟨v % 256, by omega⟩ ⟨v / 256 % 256, by omega⟩
      ⟨v / 65536 % 256, by omega⟩ ⟨v / 16777216 % 256, by omega⟩
  rw [show hexU32ToJson ⟨⟨v, hv⟩⟩ = Json.str (String.mk (bytesToHexChars
      [⟨v % 256, by omega⟩, ⟨v / 256 % 256, by omega⟩,
       ⟨v / 65536 % 256, by omega⟩, ⟨v / 16777216 % 256, by omega⟩])) from rfl]
  rw [h4]
  simp only [leBytesToU32, Option.some.injEq, HexU32Le.mk.injEq, Fin.mk.injEq]
  omega

/-- Round-trip: `ExtraNonce1`. -/
theorem extraNonce1FromJson_toJson (e : ExtraNonce1) :
    extraNonce1FromJson (extraNonce1ToJson e) = some e := by
  show (hexBytesFromJson (hexBytesToJson e.token)).map ExtraNonce1.mk = some e
  rw [hexBytesFromJson_toJson]
  rfl

/-- Round-trip: `usize` through its JSON number encoding. -/
theorem natFromJson_toJson (n : Nat) : natFromJson (natToJson n) = some n := by
  simp [natToJson, natFromJson]

/-- Round-trip: `Option<String>`. -/
theorem optStringFromJson_toJson (o : Option String) :
    optStringFromJson (optStringToJson o) = some o := by
  cases o <;> rfl

/-- Round-trip: `Option<ExtraNonce1>`. -/
theorem optExtraNonce1FromJson_toJson (o : Option ExtraNonce1) :
    optExtraNonce1FromJson (optExtraNonce1ToJson o) = some o := by
  cases o with
  | none => rfl
  | some e =>
    show (extraNonce1FromJson (Json.str (String.mk (bytesToHexChars e.token.bytes)))).map some
      = some (some e)
    rw [show Json.str (String.mk (bytesToHexChars e.token.bytes))
        = extraNonce1ToJson e from rfl]
    rw [extraNonce1FromJson_toJson]
    rfl

/-- One `Subscription` pair round-trips. -/
theorem subscriptionFromJson_toJson (s : Subscription) :
    subscriptionFromJson (subscriptionToJson s) = some s := rfl

/-- A list of `Subscription` pairs round-trips. -/
theorem subscriptionListFromJson_map (l : List Subscription) :
    subscriptionListFromJson (l.map subscriptionToJson) = some l := by
  induction l with
  | nil => rfl
  | cons s l ih =>
    simp only [List.map_cons, subscriptionListFromJson, subscriptionFromJson_toJson, ih]

/-- A list of `HexBytes` round-trips. -/
theorem hexBytesListFromJson_map (l : List HexBytes) :
    hexBytesListFromJson (l.map hexBytesToJson) = some l := by
  induction l with
  | nil => rfl
  | cons b l ih =>
    simp only [List.map_cons, hexBytesListFromJson, hexBytesFromJson_toJson, ih]

/-- Round-trip: `Subscribe` through its params array. -/
theorem subscribeFromJson_toJson (m : Subscribe) :
    subscribeFromJson (subscribeToJson m) = some m := by
  simp only [subscribeToJson, subscribeFromJson, optStringFromJson_toJson,
    optExtraNonce1FromJson_toJson]

/-- Round-trip: `Authorize` through its params array. -/
theorem authorizeFromJson_toJson (m : Authorize) :
    authorizeFromJson (authorizeToJson m) = some m := rfl

/-- Round-trip: `SetDifficulty` through its params array. -/
theorem setDifficultyFromJson_toJson (m : SetDifficulty) :
    setDifficultyFromJson (setDifficultyToJson m) = some m := rfl

/-- Round-trip: `Notify` through its params array. -/
theorem notifyFromJson_toJson (m : Notify) :
    notifyFromJson (notifyToJson m) = some m := by
  simp only [notifyToJson, notifyFromJson, jobIdToJson, jobIdFromJson,
    prevHashToJson, prevHashFromJson, coinBase1ToJson, coinBase1FromJson,
    coinBase2ToJson, coinBase2FromJson, merkleBranchToJson, merkleBranchFromJson,
    versionToJson, versionFromJson, bitsToJson, bitsFromJson,
    timeToJson, timeFromJson, hexBytesFromJson_toJson, hexU32FromJson_toJson,
    hexBytesListFromJson_map, Option.map_some']

/-- Round-trip: `Submit` through its params array. -/
theorem submitFromJson_toJson (m : Submit) :
    submitFromJson (submitToJson m) = some m := by
  simp only [submitToJson, submitFromJson, userNameToJson, userNameFromJson,
    jobIdToJson, jobIdFromJson, extraNonce2ToJson, extraNonce2FromJson,
    timeToJson, timeFromJson, nonceToJson, nonceFromJson,
    versionToJson, versionFromJson, hexBytesFromJson_toJson,
    hexU32FromJson_toJson, Option.map_some']

/-- Round-trip: `SubscribeResult` through its result value. -/
theorem subscribeResultFromJson_toJson (r : SubscribeResult) :
    subscribeResultFromJson (subscribeResultToJson r) = some r := by
  simp only [subscribeResultToJson, subscribeResultFromJson,
    subscriptionListFromJson_map, extraNonce1FromJson_toJson, natFromJson_toJson]

/-- Round-trip: `BooleanResult` through its result value. -/
theorem booleanResultFromJson_toJson (r : BooleanResult) :
    booleanResultFromJson (booleanResultToJson r) = some r := rfl

/-- C1: For every message type in the catalog (Subscribe, Authorize,
SetDifficulty, Notify, Submit in the request direction; SubscribeResult,
BooleanResult in the result direction) and every value of that type,
converting the value into its frame payload and converting that payload
back yields a structurally equal value. -/
theorem c1_message_roundtrip :
    (∀ (m : Subscribe) (id : Option Nat), ∃ p,
        Subscribe.toRequestPayload m = .ok p ∧
        Subscribe.tryFromRequest ⟨id, p⟩ = .ok m) ∧
    (∀ (m : Authorize) (id : Option Nat), ∃ p,
        Authorize.toRequestPayload m = .ok p ∧
        Authorize.tryFromRequest ⟨id, p⟩ = .ok m) ∧
    (∀ (m : SetDifficulty) (id : Option Nat), ∃ p,
        SetDifficulty.toRequestPayload m = .ok p ∧
        SetDifficulty.tryFromRequest ⟨id, p⟩ = .ok m) ∧
    (∀ (m : Notify) (id : Option Nat), ∃ p,
        Notify.toRequestPayload m = .ok p ∧
        Notify.tryFromRequest ⟨id, p⟩ = .ok m) ∧
    (∀ (m : Submit) (id : Option Nat), ∃ p,
        Submit.toRequestPayload m = .ok p ∧
        Submit.tryFromRequest ⟨id, p⟩ = .ok m) ∧
    (∀ (r : SubscribeResult) (id : Nat), ∃ p,
        SubscribeResult.toResponsePayload r = .ok p ∧
        SubscribeResult.tryFromResponse ⟨id, p⟩ = .ok r) ∧
    (∀ (r : BooleanResult) (id : Nat), ∃ p,
        BooleanResult.toResponsePayload r = .ok p ∧
        BooleanResult.tryFromResponse ⟨id, p⟩ = .ok r) := by
  refine ⟨?_, ?_, ?_, ?_, ?_, ?_, ?_⟩
  · intro m id
    exact ⟨_, rfl, by simp [Subscribe.tryFromRequest, subscribeFromJson_toJson]⟩
  · intro m id
    exact ⟨_, rfl, by simp [Authorize.tryFromRequest, authorizeFromJson_toJson]⟩
  · intro m id
    exact ⟨_, rfl, by simp [SetDifficulty.tryFromRequest, setDifficultyFromJson_toJson]⟩
  · intro m id
    exact ⟨_, rfl, by simp [Notify.tryFromRequest, notifyFromJson_toJson]⟩
  · intro m id
    exact ⟨_, rfl, by simp [Submit.tryFromRequest, submitFromJson_toJson]⟩
  · intro r id
    exact ⟨_, rfl, by
      simp [SubscribeResult.tryFromResponse, SubscribeResult.tryFromStratumResult,
        subscribeResultFromJson_toJson]⟩
  · intro r id
    exact ⟨_, rfl, by
      simp [BooleanResult.tryFromResponse, BooleanResult.tryFromStratumResult,
        booleanResultFromJson_toJson]⟩

/-- Whether a conversion outcome is a typed error returned to the caller
(the `Err` of the Rust `Result`), as opposed to a success or a panic. -/
def ConvResult.isTypedError {α : Type} : ConvResult α → Bool
  | .err _ => true
  | _ => false

/-- C2 counterexample: converting a `framing::Request` tagged
`mining.notify` into `Submit` does not return the typed
method-tag-mismatch error the claim describes.  The conversion macro runs
`assert_eq!(req.payload.method, $method)`, so the mismatch is an
unrecoverable panic, never an `Err` handed back to the caller. -/
theorem c2_counterexample_mismatch_is_panic :
    ConvResult.isTypedError
        (Submit.tryFromRequest ⟨some 1, ⟨Method.Notify, Json.arr []⟩⟩) = false ∧
    Submit.tryFromRequest ⟨some 1, ⟨Method.Notify, Json.arr []⟩⟩
      = ConvResult.panic methodAssertMsg :=
  ⟨rfl, rfl⟩

/-- C2 (amended): converting a `framing::Request` whose payload method tag
is `mining.notify` into the `Submit` type fails the `assert_eq!`
precondition check — an unrecoverable panic whose avoidance is the
caller's responsibility, not a typed error returned to the caller — and
never silently succeeds; likewise for every request type, conversion from
a `Request` tagged with a method other than that type's tag panics. -/
theorem c2_amended_mismatch_panics :
    (∀ req : Request, req.payload.method ≠ Method.Subscribe →
        Subscribe.tryFromRequest req = .panic methodAssertMsg) ∧
    (∀ req : Request, req.payload.method ≠ Method.Authorize →
        Authorize.tryFromRequest req = .panic methodAssertMsg) ∧
    (∀ req : Request, req.payload.method ≠ Method.SetDifficulty →
        SetDifficulty.tryFromRequest req = .panic methodAssertMsg) ∧
    (∀ req : Request, req.payload.method ≠ Method.Notify →
        Notify.tryFromRequest req = .panic methodAssertMsg) ∧
    (∀ req : Request, req.payload.method ≠ Method.Submit →
        Submit.tryFromRequest req = .panic methodAssertMsg) := by
  refine ⟨?_, ?_, ?_, ?_, ?_⟩ <;> intro req h <;>
    simp [Subscribe.tryFromRequest, Authorize.tryFromRequest,
      SetDifficulty.tryFromRequest, Notify.tryFromRequest,
      Submit.tryFromRequest, h]

/-- C2 witness: the amended statement applied to a concrete
`mining.notify`-tagged request converted into `Submit`. -/
theorem c2_amended_mismatch_panics_witness :
    (Request.mk (some 1) ⟨Method.Notify, Json.arr []⟩).payload.method ≠ Method.Submit ∧
    Submit.tryFromRequest ⟨some 1, ⟨Method.Notify, Json.arr []⟩⟩
      = ConvResult.panic methodAssertMsg :=
  ⟨by decide,
   c2_amended_mismatch_panics.2.2.2.2 ⟨some 1, ⟨Method.Notify, Json.arr []⟩⟩ (by decide)⟩

/-- C3: for each result-bearing message type (SubscribeResult,
BooleanResult), converting a `framing::Response` whose payload carries no
result fails with the "No result" error, whatever the error field holds;
when a result is present, conversion deserializes the result value into
the target type. -/
theorem c3_missing_result_guard :
    (∀ (id : Nat) (e : Option StratumError),
        SubscribeResult.tryFromResponse ⟨id, ⟨none, e⟩⟩ = .err (.Json "No result")) ∧
    (∀ (id : Nat) (e : Option StratumError),
        BooleanResult.tryFromResponse ⟨id, ⟨none, e⟩⟩ = .err (.Json "No result")) ∧
    (∀ (id : Nat) (r : StratumResult) (e : Option StratumError),
        SubscribeResult.tryFromResponse ⟨id, ⟨some r, e⟩⟩
          = SubscribeResult.tryFromStratumResult r) ∧
    (∀ (id : Nat) (r : StratumResult) (e : Option StratumError),
        BooleanResult.tryFromResponse ⟨id, ⟨some r, e⟩⟩
          = BooleanResult.tryFromStratumResult r) :=
  ⟨fun _ _ => rfl, fun _ _ => rfl, fun _ _ _ => rfl, fun _ _ _ => rfl⟩

/-- C4: for every result-bearing message value, the conversion into a
`framing::ResponsePayload`, when it succeeds, produces a payload whose
result field is Some of the serialized field tuple and whose error field
is None. -/
theorem c4_response_payload_result_without_error :
    (∀ r : SubscribeResult, SubscribeResult.toResponsePayload r
        = .ok ⟨some ⟨subscribeResultToJson r⟩, none⟩) ∧
    (∀ r : BooleanResult, BooleanResult.toResponsePayload r
        = .ok ⟨some ⟨booleanResultToJson r⟩, none⟩) :=
  ⟨fun _ => rfl, fun _ => rfl⟩

/-- C5: for every request message variant and value, `accept` invokes
exactly the one handler method documented for that variant, exactly once,
passing the original message unchanged together with the envelope; the
call trace is always a singleton, so dispatch cannot fail. -/
theorem c5_dispatch_totality :
    (∀ (m : Subscribe) (msg : WireMessage),
        m.accept msg = [HandlerCall.visit_subscribe msg m]) ∧
    (∀ (m : Authorize) (msg : WireMessage),
        m.accept msg = [HandlerCall.visit_authorize msg m]) ∧
    (∀ (m : SetDifficulty) (msg : WireMessage),
        m.accept msg = [HandlerCall.visit_set_difficulty msg m]) ∧
    (∀ (m : Notify) (msg : WireMessage),
        m.accept msg = [HandlerCall.visit_notify msg m]) ∧
    (∀ (m : Submit) (msg : WireMessage),
        m.accept msg = [HandlerCall.visit_submit msg m]) :=
  ⟨fun _ _ => rfl, fun _ _ => rfl, fun _ _ => rfl, fun _ _ => rfl, fun _ _ => rfl⟩

/-- A `Notify` params array of eight elements never deserializes. -/
theorem notifyFromJson_length_eight (xs : List Json) (h : xs.length = 8) :
    notifyFromJson (.arr xs) = none := by
  rcases xs with _ | ⟨a, xs⟩
  · simp at h
  rcases xs with _ | ⟨b, xs⟩
  · simp at h
  rcases xs with _ | ⟨c, xs⟩
  · simp at h
  rcases xs with _ | ⟨d, xs⟩
  · simp at h
  rcases xs with _ | ⟨e, xs⟩
  · simp at h
  rcases xs with _ | ⟨f, xs⟩
  · simp at h
  rcases xs with _ | ⟨g, xs⟩
  · simp at h
  rcases xs with _ | ⟨h8, xs⟩
  · simp at h
  rcases xs with _ | ⟨i, xs⟩
  · rfl
  · simp at h

/-- C6: converting a Request whose Notify params array has 8 elements
instead of the required 9 fails with a typed deserialization
(param-shape-mismatch) error returned to the caller — never a panic and
never an out-of-bounds access. -/
theorem c6_notify_shape_guard (xs : List Json) (id : Option Nat) (h : xs.length = 8) :
    ∃ msg, Notify.tryFromRequest ⟨id, ⟨Method.Notify, Json.arr xs⟩⟩
      = .err (.Json msg) := by
  refine ⟨"Cannot parse request params", ?_⟩
  simp [Notify.tryFromRequest, notifyFromJson_length_eight xs h]

/-- C6 witness: the shape guard applied to a concrete 8-element params
array. -/
theorem c6_notify_shape_guard_witness :
    ([Json.null, Json.null, Json.null, Json.null,
      Json.null, Json.null, Json.null, Json.null] : List Json).length = 8 ∧
    ∃ msg, Notify.tryFromRequest ⟨some 1, ⟨Method.Notify,
        Json.arr [Json.null, Json.null, Json.null, Json.null,
                  Json.null, Json.null, Json.null, Json.null]⟩⟩
      = ConvResult.err (.Json msg) :=
  ⟨rfl, c6_notify_shape_guard
    [Json.null, Json.null, Json.null, Json.null,
     Json.null, Json.null, Json.null, Json.null] (some 1) rfl⟩

/-- C7: SetDifficulty serializes to a one-element array wrapping its
single floating-point difficulty value (not a bare scalar), deserializes
only from such a one-element array, and its `value()` accessor returns
the wrapped element. -/
theorem c7_set_difficulty_one_element_array :
    (∀ s : SetDifficulty, setDifficultyToJson s = Json.arr [Json.num s.value.val]) ∧
    (∀ (j : Json) (s : SetDifficulty), setDifficultyFromJson j = some s →
        j = Json.arr [Json.num s.value.val]) ∧
    (∀ s : SetDifficulty, s.value = s.f0) := by
  refine ⟨fun s => rfl, ?_, fun s => rfl⟩
  intro j s h
  obtain ⟨⟨sv⟩⟩ := s
  cases j with
  | null => simp [setDifficultyFromJson] at h
  | bool b => simp [setDifficultyFromJson] at h
  | num q => simp [setDifficultyFromJson] at h
  | str st => simp [setDifficultyFromJson] at h
  | arr es =>
    cases es with
    | nil => simp [setDifficultyFromJson] at h
    | cons x es =>
      cases es with
      | cons y es => cases x <;> simp [setDifficultyFromJson] at h
      | nil =>
        cases x with
        | null => simp [setDifficultyFromJson] at h
        | bool b => simp [setDifficultyFromJson] at h
        | str st => simp [setDifficultyFromJson] at h
        | arr es2 => simp [setDifficultyFromJson] at h
        | num q =>
          simp only [setDifficultyFromJson, Option.some.injEq] at h
          cases h
          rfl

/-- C7 witness: the deserialization direction applied to the concrete
one-element array wrapping the number 2. -/
theorem c7_set_difficulty_one_element_array_witness :
    setDifficultyFromJson (Json.arr [Json.num 2]) = some ⟨⟨2⟩⟩ ∧
    Json.arr [Json.num 2]
      = Json.arr [Json.num ((SetDifficulty.mk ⟨2⟩).value.val)] :=
  ⟨rfl, c7_set_difficulty_one_element_array.2.1 (Json.arr [Json.num 2]) ⟨⟨2⟩⟩ rfl⟩

/-- C8: the wire fixture with method tag mining.subscribe and params
array ["agent/1.0", null, null, null] converts to a Subscribe whose agent
signature is Some "agent/1.0" and whose extra nonce 1, url and port are
all absent; re-encoding that Subscribe reproduces the same params array. -/
theorem c8_subscribe_wire_fixture :
    Subscribe.tryFromRequest ⟨some 1, ⟨Method.Subscribe,
        Json.arr [Json.str "agent/1.0", Json.null, Json.null, Json.null]⟩⟩
      = .ok ⟨some "agent/1.0", none, none, none⟩ ∧
    (Subscribe.mk (some "agent/1.0") none none none).agent_signature
      = some "agent/1.0" ∧
    (Subscribe.mk (some "agent/1.0") none none none).extra_nonce1 = none ∧
    (Subscribe.mk (some "agent/1.0") none none none).url = none ∧
    (Subscribe.mk (some "agent/1.0") none none none).port = none ∧
    Subscribe.toRequestPayload ⟨some "agent/1.0", none, none, none⟩
      = .ok ⟨Method.Subscribe,
          Json.arr [Json.str "agent/1.0", Json.null, Json.null, Json.null]⟩ ∧
    Method.Subscribe.wireName = "mining.subscribe" :=
  ⟨rfl, rfl, rfl, rfl, rfl, rfl, rfl⟩

/-- C9: the little-endian 32-bit codec — the wire type behind Version,
Bits, Time and Nonce — interprets the hex string's bytes in reverse order
before numeric conversion: the byte sequence 00 00 00 01 decodes to
16777216, not 1, and encoding reverses the byte order before
hex-rendering. -/
theorem c9_hexU32Le_little_endian :
    hexU32FromJson (Json.str "00000001") = some ⟨16777216⟩ ∧
    (16777216 : Nat) ≠ 1 ∧
    hexU32ToJson ⟨16777216⟩ = Json.str "00000001" ∧
    hexU32ToJson ⟨1⟩ = Json.str "01000000" ∧
    (∀ b0 b1 b2 b3 : Fin 256,
        hexU32FromJson (.str (String.mk (bytesToHexChars [b0, b1, b2, b3])))
          = some ⟨leBytesToU32 b0 b1 b2 b3⟩) ∧
    (∀ b0 b1 b2 b3 : Fin 256,
        (leBytesToU32 b0 b1 b2 b3).val
          = b0.val + 256 * b1.val + 65536 * b2.val + 16777216 * b3.val) ∧
    (∀ h : HexU32Le,
        versionToJson ⟨h⟩ = hexU32ToJson h ∧ bitsToJson ⟨h⟩ = hexU32ToJson h ∧
        timeToJson ⟨h⟩ = hexU32ToJson h ∧ nonceToJson ⟨h⟩ = hexU32ToJson h ∧
        versionFromJson (hexU32ToJson h) = some ⟨h⟩ ∧
        bitsFromJson (hexU32ToJson h) = some ⟨h⟩ ∧
        timeFromJson (hexU32ToJson h) = some ⟨h⟩ ∧
        nonceFromJson (hexU32ToJson h) = some ⟨h⟩) := by
  refine ⟨by decide, by decide, ?_, ?_,
    hexU32FromJson_leBytes, fun _ _ _ _ => rfl, ?_⟩
  · show Json.str (String.mk (bytesToHexChars (u32ToLeBytes 16777216)))
      = Json.str "00000001"
    exact congrArg Json.str (by decide)
  · show Json.str (String.mk (bytesToHexChars (u32ToLeBytes 1)))
      = Json.str "01000000"
    exact congrArg Json.str (by decide)
  intro h
  refine ⟨rfl, rfl, rfl, rfl, ?_, ?_, ?_, ?_⟩ <;>
    simp [versionFromJson, bitsFromJson, timeFromJson, nonceFromJson,
      hexU32FromJson_toJson]

/-- C10: the Response-to-typed-message conversion never inspects the
error field — when a result is present, conversion deserializes it alone
and its outcome is independent of the error field, succeeding even on a
response that carries both a result and an error. -/
theorem c10_error_field_never_inspected :
    (∀ (id : Nat) (r : StratumResult) (e : Option StratumError),
        SubscribeResult.tryFromResponse ⟨id, ⟨some r, e⟩⟩
          = SubscribeResult.tryFromResponse ⟨id, ⟨some r, none⟩⟩) ∧
    (∀ (id : Nat) (r : StratumResult) (e : Option StratumError),
        BooleanResult.tryFromResponse ⟨id, ⟨some r, e⟩⟩
          = BooleanResult.tryFromResponse ⟨id, ⟨some r, none⟩⟩) ∧
    BooleanResult.tryFromResponse ⟨7, ⟨some ⟨Json.bool true⟩,
        some ⟨20, "Other/Unknown", none⟩⟩⟩ = .ok ⟨true⟩ :=
  ⟨fun _ _ _ => rfl, fun _ _ _ => rfl, rfl⟩

end StratumV1
